import Mathlib

/-!
Verification development for the LMS backend integration layer.

Shallow embedding of:
- `lms_api/services/lms_integration.py` (the `sync_*_courses` methods),
- `lms_api/services/retry_service.py` (`RetryService.with_retry`,
  `RetryService.circuit_breaker`), and
- `lms_api/services/moodle_service.py` (`MoodleParamEncoder.encode_params`,
  `MoodleService._normalize_error`, `MoodleService._make_request_with_retry`).

Python exceptions are modelled as values of an inductive type; raising is
modelled with `Except`.  Database state (the `courses` table touched through
`DBSession`) is modelled as a list of rows; a commit returns the worked list,
a rollback returns the original list.  Wall-clock seconds are `Nat`; float
delays are exact rationals.
-/

namespace LMS

instance exceptDecEq {ε α : Type} [DecidableEq ε] [DecidableEq α] :
    DecidableEq (Except ε α) := fun x y =>
  match x, y with
  | .ok a, .ok b =>
      if h : a = b then .isTrue (by rw [h])
      else .isFalse (by intro hh; cases hh; exact h rfl)
  | .error a, .error b =>
      if h : a = b then .isTrue (by rw [h])
      else .isFalse (by intro hh; cases hh; exact h rfl)
  | .ok _, .error _ => .isFalse (by intro hh; cases hh)
  | .error _, .ok _ => .isFalse (by intro hh; cases hh)

/-- Python exception values that flow through the integration layer.
Every constructor is a subclass of `Exception`; only `requestException`
(`requests.RequestException`), `serviceUnavailable` (`ServiceUnavailableError`)
and `tokenExpired` (`TokenExpiredError`) appear in the retry exception tuples
used by `lms_integration.py`. -/
inductive PyExc where
  | requestException (msg : String)
  | serviceUnavailable (msg : String)
  | tokenExpired (msg : String)
  | keyError (key : String)
  | generic (msg : String)
deriving DecidableEq, Repr

/-- A row of the `courses` table, restricted to the columns that the
`sync_*_courses` methods read and write (`course_id` is UNIQUE in the schema). -/
structure Course where
  course_id : String
  name : String
  short_name : String
  description : String
  category : String
  lms : String
  external_id : String
deriving DecidableEq, Repr

/-- Result dict returned by a successful `sync_*_courses` call. -/
structure SyncResult where
  status : String
  synced : Nat
  updated : Nat
  total_processed : Nat
deriving DecidableEq, Repr

/-- In-place update of the first row whose `course_id` equals `k`:
every field of `data` is copied onto the row except the key itself
(`for key, value in course_data.items(): if key != 'course_id': setattr ...`). -/
def updateFirst (db : List Course) (k : String) (data : Course) : List Course :=
  match db with
  | [] => []
  | c :: rest =>
    if c.course_id == k then { data with course_id := c.course_id } :: rest
    else c :: updateFirst rest k data

/-- The shared per-course upsert loop of the `sync_*_courses` methods.
`keep` models the `continue` filter (only Sakai filters), `parse` models the
construction of `course_data` from one remote record (raising `KeyError` on a
missing required field).  A found row (`DBSession.query(...).first()`, which
sees pending adds through autoflush) is updated in place and counted in
`updated`; otherwise a fresh row is appended and counted in `synced`. -/
def upsertLoop {α : Type} (keep : α → Bool) (parse : α → Except PyExc Course) :
    List Course → List α → Nat → Nat → Except PyExc (List Course × Nat × Nat)
  | db, [], synced, updated => .ok (db, synced, updated)
  | db, x :: rest, synced, updated =>
    if keep x then
      match parse x with
      | .error e => .error e
      | .ok data =>
        match db.find? (fun c => c.course_id == data.course_id) with
        | some _ =>
            upsertLoop keep parse (updateFirst db data.course_id data) rest synced (updated + 1)
        | none => upsertLoop keep parse (db ++ [data]) rest (synced + 1) updated
    else upsertLoop keep parse db rest synced updated

/-- One raw Moodle course record as parsed from JSON: `id`, `fullname` and
`shortname` are accessed by subscript (`KeyError` when absent), `summary` and
`categoryname` through `.get` with defaults. -/
structure MoodleCourseJson where
  id : Option Int
  fullname : Option String
  shortname : Option String
  summary : Option String
  categoryname : Option String
deriving DecidableEq, Repr

/-- A well-formed remote Moodle course (all required fields present). -/
structure MoodleCourse where
  id : Int
  fullname : String
  shortname : String
  summary : Option String
  categoryname : Option String
deriving DecidableEq, Repr

def MoodleCourse.toJson (m : MoodleCourse) : MoodleCourseJson :=
  ⟨some m.id, some m.fullname, some m.shortname, m.summary, m.categoryname⟩

/-- The synthesized local key for a remote Moodle course:
`f"moodle_{moodle_course['id']}"`. -/
def moodleKey (i : Int) : String := "moodle_" ++ toString i

/-- Builds `course_data` for one remote Moodle course, in source evaluation
order: `course_id` (subscript `id`), `name` (subscript `fullname`),
`short_name` (subscript `shortname`), then the `.get` fields. -/
def parseMoodleCourse (j : MoodleCourseJson) : Except PyExc Course :=
  match j.id with
  | none => .error (.keyError "id")
  | some i =>
    match j.fullname with
    | none => .error (.keyError "fullname")
    | some fn =>
      match j.shortname with
      | none => .error (.keyError "shortname")
      | some sn =>
        .ok { course_id := moodleKey i
            , name := fn
            , short_name := sn
            , description := j.summary.getD ""
            , category := j.categoryname.getD "General"
            , lms := "moodle"
            , external_id := toString i }

/-- Outcome of the remote fetch inside `sync_moodle_courses`:
a `requests.RequestException` (timeout, connection error or HTTP error raised
by `raise_for_status`), a parsed JSON body carrying an `exception` key, or a
parsed course list. -/
inductive MoodleFetch where
  | reqError (msg : String)
  | apiException (msg : String)
  | ok (courses : List MoodleCourseJson)
deriving DecidableEq, Repr

/-- The body of `sync_moodle_courses` (inside the decorators), as a function of
the database state and the fetch outcome.  A `requests.RequestException` is
caught and re-raised as a plain `Exception` wrapping the message, without a
rollback (nothing is pending yet); any other exception rolls the session back
and is re-raised unmodified; the happy path commits once and returns counts. -/
def sync_moodle_courses_run (db : List Course) (fetch : MoodleFetch) :
    List Course × Except PyExc SyncResult :=
  match fetch with
  | .reqError m => (db, .error (.generic ("Failed to connect to Moodle: " ++ m)))
  | .apiException m => (db, .error (.generic ("Moodle API error: " ++ m)))
  | .ok courses =>
    match upsertLoop (fun _ => true) parseMoodleCourse db courses 0 0 with
    | .error e => (db, .error e)
    | .ok (db2, synced, updated) =>
        (db2, .ok { status := "success", synced := synced, updated := updated
                  , total_processed := courses.length })

/-- One raw Canvas course record: `id`, `name` and `course_code` are accessed
by subscript, `public_description` through `.get`. -/
structure CanvasCourseJson where
  id : Option Int
  name : Option String
  course_code : Option String
  public_description : Option String
deriving DecidableEq, Repr

/-- Builds `course_data` for one remote Canvas course, in source evaluation
order. -/
def parseCanvasCourse (j : CanvasCourseJson) : Except PyExc Course :=
  match j.id with
  | none => .error (.keyError "id")
  | some i =>
    match j.name with
    | none => .error (.keyError "name")
    | some nm =>
      match j.course_code with
      | none => .error (.keyError "course_code")
      | some cc =>
        .ok { course_id := "canvas_" ++ toString i
            , name := nm
            , short_name := cc
            , description := j.public_description.getD ""
            , category := "Canvas"
            , lms := "canvas"
            , external_id := toString i }

/-- Outcome of the remote fetch inside `sync_canvas_courses` (the Canvas body
performs no `exception`-key check on the parsed JSON). -/
inductive CanvasFetch where
  | reqError (msg : String)
  | ok (courses : List CanvasCourseJson)
deriving DecidableEq, Repr

/-- The body of `sync_canvas_courses` (inside the decorators). -/
def sync_canvas_courses_run (db : List Course) (fetch : CanvasFetch) :
    List Course × Except PyExc SyncResult :=
  match fetch with
  | .reqError m => (db, .error (.generic ("Failed to connect to Canvas: " ++ m)))
  | .ok courses =>
    match upsertLoop (fun _ => true) parseCanvasCourse db courses 0 0 with
    | .error e => (db, .error e)
    | .ok (db2, synced, updated) =>
        (db2, .ok { status := "success", synced := synced, updated := updated
                  , total_processed := courses.length })

/-- One raw Sakai site record: only `id` is accessed by subscript (and only
after the type filter passed); every other field goes through `.get`. -/
structure SakaiSiteJson where
  id : Option String
  siteType : Option String
  title : Option String
  short_description : Option String
  description : Option String
deriving DecidableEq, Repr

/-- The Sakai loop filter: `if sakai_site.get('type') not in ['course',
'project']: continue`. -/
def sakaiKeep (s : SakaiSiteJson) : Bool :=
  s.siteType == some "course" || s.siteType == some "project"

/-- Builds `course_data` for one kept Sakai site, in source evaluation order;
`short_name` falls back from `short_description` to `title` to the empty
string. -/
def parseSakaiSite (s : SakaiSiteJson) : Except PyExc Course :=
  match s.id with
  | none => .error (.keyError "id")
  | some i =>
      .ok { course_id := "sakai_" ++ i
          , name := s.title.getD ""
          , short_name := s.short_description.getD (s.title.getD "")
          , description := s.description.getD ""
          , category := s.siteType.getD "Sakai"
          , lms := "sakai"
          , external_id := i }

/-- Outcome of the remote fetch inside `sync_sakai_courses` (authentication
POST plus site listing GET; `site_collection` defaults to `[]`). -/
inductive SakaiFetch where
  | reqError (msg : String)
  | ok (sites : List SakaiSiteJson)
deriving DecidableEq, Repr

/-- The body of `sync_sakai_courses` (inside the decorators);
`total_processed` is the number of sites whose type passes the filter. -/
def sync_sakai_courses_run (db : List Course) (fetch : SakaiFetch) :
    List Course × Except PyExc SyncResult :=
  match fetch with
  | .reqError m => (db, .error (.generic ("Failed to connect to Sakai: " ++ m)))
  | .ok sites =>
    match upsertLoop sakaiKeep parseSakaiSite db sites 0 0 with
    | .error e => (db, .error e)
    | .ok (db2, synced, updated) =>
        (db2, .ok { status := "success", synced := synced, updated := updated
                  , total_processed := sites.countP (fun s => sakaiKeep s) })

/-- One raw Chamilo course record: only `id` is accessed by subscript. -/
structure ChamiloCourseJson where
  id : Option Int
  title : Option String
  code : Option String
  course_description : Option String
  category_name : Option String
deriving DecidableEq, Repr

/-- Builds `course_data` for one remote Chamilo course. -/
def parseChamiloCourse (j : ChamiloCourseJson) : Except PyExc Course :=
  match j.id with
  | none => .error (.keyError "id")
  | some i =>
      .ok { course_id := "chamilo_" ++ toString i
          , name := j.title.getD ""
          , short_name := j.code.getD ""
          , description := j.course_description.getD ""
          , category := j.category_name.getD "Chamilo"
          , lms := "chamilo"
          , external_id := toString i }

/-- Outcome of the remote fetch inside `sync_chamilo_courses`: request error,
a body whose `success` flag is falsy (message from `.get('message', 'Unknown
error')`), or the `data` course list (default `[]`). -/
inductive ChamiloFetch where
  | reqError (msg : String)
  | notSuccess (msg : String)
  | ok (courses : List ChamiloCourseJson)
deriving DecidableEq, Repr

/-- The body of `sync_chamilo_courses` (inside the decorators). -/
def sync_chamilo_courses_run (db : List Course) (fetch : ChamiloFetch) :
    List Course × Except PyExc SyncResult :=
  match fetch with
  | .reqError m => (db, .error (.generic ("Failed to connect to Chamilo: " ++ m)))
  | .notSuccess m => (db, .error (.generic ("Chamilo API error: " ++ m)))
  | .ok courses =>
    match upsertLoop (fun _ => true) parseChamiloCourse db courses 0 0 with
    | .error e => (db, .error e)
    | .ok (db2, synced, updated) =>
        (db2, .ok { status := "success", synced := synced, updated := updated
                  , total_processed := courses.length })

/-! ## Resilience primitives (`retry_service.py`) -/

/-- The delay computed before a retry in `RetryService.with_retry`:
`min(backoff_factor * (2 ** attempt), max_delay)` when exponential, else
`min(backoff_factor * (attempt + 1), max_delay)`. -/
def retryDelay (expo : Bool) (backoff maxDelay : ℚ) (attempt : Nat) : ℚ :=
  if expo then min (backoff * 2 ^ attempt) maxDelay
  else min (backoff * (attempt + 1)) maxDelay

/-- Observable outcome of one call through a `with_retry` wrapper: the final
result, how many times the wrapped function was invoked, and the list of
delays passed to `time.sleep`, in order. -/
structure RetryResult (ρ : Type) where
  result : Except PyExc ρ
  calls : Nat
  sleeps : List ℚ
deriving DecidableEq, Repr

/-- The `for attempt in range(max_attempts)` loop of `with_retry.wrapper`,
with `remaining` attempts left and `attempt` the current 0-based index.
`f n` is the outcome the wrapped function produces on its `n`-th invocation;
`excMatch e` decides membership of `e` in the configured `exceptions` tuple.
A non-matching exception propagates immediately; a matching one on a
non-final attempt sleeps `retryDelay` and continues; after the final attempt
the last exception is re-raised. -/
def withRetryGo (backoff maxDelay : ℚ) (expo : Bool) (excMatch : PyExc → Bool)
    (f : Nat → Except PyExc ρ) : Nat → Nat → RetryResult ρ
  | _, 0 =>
      -- Only reachable with `max_attempts = 0`: `raise last_exception` with
      -- `last_exception = None` is a `TypeError` in Python.
      ⟨.error (.generic "TypeError: exceptions must derive from BaseException"), 0, []⟩
  | attempt, r + 1 =>
    match f attempt with
    | .ok v => ⟨.ok v, 1, []⟩
    | .error e =>
      if excMatch e then
        if r = 0 then ⟨.error e, 1, []⟩
        else
          let d := retryDelay expo backoff maxDelay attempt
          let rest := withRetryGo backoff maxDelay expo excMatch f (attempt + 1) r
          ⟨rest.result, rest.calls + 1, d :: rest.sleeps⟩
      else ⟨.error e, 1, []⟩

/-- One call through `RetryService.with_retry(max_attempts, backoff_factor,
max_delay, exceptions, exponential)` applied to a function whose `n`-th
invocation yields `f n`. -/
def withRetryCall (maxAttempts : Nat) (backoff maxDelay : ℚ) (expo : Bool)
    (excMatch : PyExc → Bool) (f : Nat → Except PyExc ρ) : RetryResult ρ :=
  withRetryGo backoff maxDelay expo excMatch f 0 maxAttempts

/-- Per-function circuit breaker record kept in
`RetryService.circuit_breakers`: `{'failures': ..., 'last_failure_time': ...,
'state': 'closed' | 'open' | 'half_open'}`.  Times are absolute wall-clock
seconds. -/
structure CircuitState where
  failures : Nat
  last_failure_time : Option Nat
  state : String
deriving DecidableEq, Repr

/-- The fresh record created lazily on the first call for a function. -/
def freshCircuit : CircuitState := ⟨0, none, "closed"⟩

/-- `timedelta.seconds` of a nonnegative whole-second `timedelta`: the
seconds component within the day, NOT the total number of seconds. -/
def timedeltaSeconds (d : Nat) : Nat := d % 86400

/-- The fail-fast error raised while the circuit is open:
`Exception(f"Circuit breaker is open for {func_name}. Service is temporarily
unavailable.")`. -/
def circuitOpenError (funcName : String) : PyExc :=
  .generic ("Circuit breaker is open for " ++ funcName ++
    ". Service is temporarily unavailable.")

/-- Observable outcome of one call through a `circuit_breaker` wrapper:
the result, the stored circuit record afterwards, and whether the wrapped
function was invoked at all. -/
structure BreakerOutcome (ρ : Type) where
  result : Except PyExc ρ
  state : CircuitState
  invoked : Bool
deriving DecidableEq, Repr

/-- One call through `RetryService.circuit_breaker(failure_threshold,
recovery_timeout)` (with the default `expected_exception = Exception`, which
every modelled exception excMatch).  `now` is `datetime.now()` in seconds and
`call` is the outcome the wrapped function would produce if invoked.
The open circuit moves to half-open when `(now - last_failure_time).seconds`
(the day-remainder, see `timedeltaSeconds`) reaches `recovery_timeout`;
an open circuit fails fast without invoking; success resets the record to
closed with zero failures; a failure increments `failures`, stamps `now`,
and opens the circuit once `failures` reaches the threshold. -/
def circuitBreakerCall (funcName : String) (threshold recovery : Nat)
    (st : CircuitState) (now : Nat) (call : Except PyExc ρ) : BreakerOutcome ρ :=
  let st1 :=
    if st.state == "open" &&
        (match st.last_failure_time with
         | some lf => decide (timedeltaSeconds (now - lf) ≥ recovery)
         | none => false) then
      { st with state := "half_open" }
    else st
  if st1.state == "open" then
    ⟨.error (circuitOpenError funcName), st1, false⟩
  else
    match call with
    | .ok v => ⟨.ok v, freshCircuit, true⟩
    | .error e =>
      let fl := st1.failures + 1
      ⟨.error e, ⟨fl, some now, if fl ≥ threshold then "open" else st1.state⟩, true⟩

/-! ## Decorator stacking on the `sync_*_courses` methods

In `lms_integration.py` every `sync_*_courses` method carries

```text
@retry_service.with_retry(max_attempts=3, backoff_factor=2.0, exceptions=...)
@retry_service.circuit_breaker(failure_threshold=5, recovery_timeout=300)
def sync_..._courses(self): ...
```

Python applies decorators bottom-up, so the circuit breaker wraps the body
and `with_retry` wraps the circuit breaker: the composed callable is
`with_retry(circuit_breaker(body))`. -/

/-- Observable outcome of one call through a retry/circuit-breaker stack. -/
structure StackResult (ρ : Type) where
  result : Except PyExc ρ
  bodyCalls : Nat
  sleeps : List ℚ
  circuit : CircuitState
deriving DecidableEq, Repr

/-- The source stacking `with_retry(circuit_breaker(body))`: the retry loop
calls the breaker-wrapped function on each attempt; `body n` is the outcome
of the `n`-th actual invocation of the sync body, `times a` is
`datetime.now()` at retry attempt `a`. -/
def retryOverCBGo (funcName : String) (backoff maxDelay : ℚ) (expo : Bool)
    (excMatch : PyExc → Bool) (threshold recovery : Nat)
    (body : Nat → Except PyExc ρ) (times : Nat → Nat) :
    Nat → Nat → Nat → CircuitState → StackResult ρ
  | _, 0, calls, st =>
      ⟨.error (.generic "TypeError: exceptions must derive from BaseException"),
        calls, [], st⟩
  | attempt, r + 1, calls, st =>
    let cb := circuitBreakerCall funcName threshold recovery st (times attempt)
      (body calls)
    let calls2 := calls + (if cb.invoked then 1 else 0)
    match cb.result with
    | .ok v => ⟨.ok v, calls2, [], cb.state⟩
    | .error e =>
      if excMatch e then
        if r = 0 then ⟨.error e, calls2, [], cb.state⟩
        else
          let d := retryDelay expo backoff maxDelay attempt
          let rest := retryOverCBGo funcName backoff maxDelay expo excMatch
            threshold recovery body times (attempt + 1) r calls2 cb.state
          ⟨rest.result, rest.bodyCalls, d :: rest.sleeps, rest.circuit⟩
      else ⟨.error e, calls2, [], cb.state⟩

/-- One call through the source stack `with_retry(circuit_breaker(body))`. -/
def retryOverCB (funcName : String) (maxAttempts : Nat) (backoff maxDelay : ℚ)
    (expo : Bool) (excMatch : PyExc → Bool) (threshold recovery : Nat)
    (body : Nat → Except PyExc ρ) (times : Nat → Nat) (st : CircuitState) :
    StackResult ρ :=
  retryOverCBGo funcName backoff maxDelay expo excMatch threshold recovery
    body times 0 maxAttempts 0 st

/-- The opposite stacking `circuit_breaker(with_retry(body))` claimed by the
spec: the breaker is entered once and, when it lets the call through, the
whole retry loop runs inside it. -/
def cbOverRetry (funcName : String) (maxAttempts : Nat) (backoff maxDelay : ℚ)
    (expo : Bool) (excMatch : PyExc → Bool) (threshold recovery : Nat)
    (body : Nat → Except PyExc ρ) (now : Nat) (st : CircuitState) :
    StackResult ρ :=
  let inner := withRetryCall maxAttempts backoff maxDelay expo excMatch body
  let cb := circuitBreakerCall funcName threshold recovery st now inner.result
  { result := cb.result
  , bodyCalls := if cb.invoked then inner.calls else 0
  , sleeps := if cb.invoked then inner.sleeps else []
  , circuit := cb.state }

/-- Membership test for the retry exception tuple
`(requests.RequestException, ServiceUnavailableError)` used on
`sync_moodle_courses`, `sync_sakai_courses` and `sync_chamilo_courses`. -/
def syncRetryMatches : PyExc → Bool
  | .requestException _ => true
  | .serviceUnavailable _ => true
  | _ => false

/-- Membership test for the retry exception tuple of `sync_canvas_courses`,
which adds `TokenExpiredError`. -/
def canvasRetryMatches : PyExc → Bool
  | .requestException _ => true
  | .serviceUnavailable _ => true
  | .tokenExpired _ => true
  | _ => false

/-- The fully decorated `sync_moodle_courses` as deployed: max_attempts 3,
backoff factor 2.0, exponential, default max_delay 300; circuit threshold 5,
recovery 300 s.  `fetch n` is the remote outcome seen by the `n`-th body
invocation (a failed body leaves `db` unchanged, so each invocation starts
from the same table state). -/
def moodleSyncStack (db : List Course) (fetch : Nat → MoodleFetch)
    (times : Nat → Nat) (st : CircuitState) : StackResult SyncResult :=
  retryOverCB "sync_moodle_courses" 3 2 300 true syncRetryMatches 5 300
    (fun n => (sync_moodle_courses_run db (fetch n)).2) times st

/-- The fully decorated `sync_canvas_courses`. -/
def canvasSyncStack (db : List Course) (fetch : Nat → CanvasFetch)
    (times : Nat → Nat) (st : CircuitState) : StackResult SyncResult :=
  retryOverCB "sync_canvas_courses" 3 2 300 true canvasRetryMatches 5 300
    (fun n => (sync_canvas_courses_run db (fetch n)).2) times st

/-- The fully decorated `sync_sakai_courses`. -/
def sakaiSyncStack (db : List Course) (fetch : Nat → SakaiFetch)
    (times : Nat → Nat) (st : CircuitState) : StackResult SyncResult :=
  retryOverCB "sync_sakai_courses" 3 2 300 true syncRetryMatches 5 300
    (fun n => (sync_sakai_courses_run db (fetch n)).2) times st

/-- The fully decorated `sync_chamilo_courses`. -/
def chamiloSyncStack (db : List Course) (fetch : Nat → ChamiloFetch)
    (times : Nat → Nat) (st : CircuitState) : StackResult SyncResult :=
  retryOverCB "sync_chamilo_courses" 3 2 300 true syncRetryMatches 5 300
    (fun n => (sync_chamilo_courses_run db (fetch n)).2) times st

/-! ## Moodle client service (`moodle_service.py`) -/

/-- The kind of `MoodleError` subclass raised by the Moodle client:
`MoodleAuthError`, `MoodleValidationError`, `MoodleNotFoundError` or the base
`MoodleError`. -/
inductive MoodleErrKind where
  | auth
  | validation
  | notFound
  | generic
deriving DecidableEq, Repr

/-- A raised `MoodleError` value: its class, `str(e)` message, `error_code`
and `status_code` attributes. -/
structure MoodleExcVal where
  kind : MoodleErrKind
  message : String
  error_code : Option String
  status_code : Option Nat
deriving DecidableEq, Repr

/-- The fields of a parsed Moodle error response that `_normalize_error`
reads: `response_data.get('errorcode', 'unknown')` and
`response_data.get('message', 'Unknown Moodle error')`. -/
structure MoodleResponseErr where
  errorcode : Option String
  message : Option String
deriving DecidableEq, Repr

def AUTH_ERRORS : List String :=
  ["invalidtoken", "accessexception", "nopermissions", "notloggedin"]

def VALIDATION_ERRORS : List String :=
  ["invalidparameter", "missingparam", "invalidrecord"]

def NOT_FOUND_ERRORS : List String :=
  ["invaliduser", "invalidcourse", "coursenotexist"]

/-- `MoodleService._normalize_error`: maps a Moodle error response onto a
typed `MoodleError` subclass with an HTTP status code. -/
def normalize_error (r : MoodleResponseErr) : MoodleExcVal :=
  let error_code := r.errorcode.getD "unknown"
  let message := r.message.getD "Unknown Moodle error"
  if error_code ∈ AUTH_ERRORS then
    if error_code = "invalidtoken" then
      ⟨.auth, "Invalid Moodle token", some error_code, some 401⟩
    else ⟨.auth, "Access denied: " ++ message, some error_code, some 403⟩
  else if error_code ∈ VALIDATION_ERRORS then
    ⟨.validation, "Validation error: " ++ message, some error_code, some 400⟩
  else if error_code ∈ NOT_FOUND_ERRORS then
    ⟨.notFound, "Resource not found: " ++ message, some error_code, some 404⟩
  else ⟨.generic, "Moodle error: " ++ message, some error_code, some 500⟩

/-- The fixed allow-list `IDEMPOTENT_FUNCTIONS` of
`_make_request_with_retry`. -/
def IDEMPOTENT_FUNCTIONS : List String :=
  [ "core_webservice_get_site_info"
  , "core_course_get_courses"
  , "core_user_get_users_by_field"
  , "message_popup_get_popup_notifications"
  , "core_message_get_popup_notifications"
  , "core_message_get_unread_popup_notifications_count" ]

/-- `retries = max_retries if is_idempotent else 0` with the default
`max_retries = 2`. -/
def retriesFor (wsfunction : String) : Nat :=
  if wsfunction ∈ IDEMPOTENT_FUNCTIONS then 2 else 0

/-- What one HTTP attempt inside `_make_request_with_retry` runs into:
a transport timeout, a connection error, an HTTP status error from
`raise_for_status`, an unparsable JSON body, some other unexpected exception,
a parsed dict carrying an `exception` key, or plain response data. -/
inductive MoodleHttpOutcome where
  | timeout
  | connError
  | httpError (status : Nat)
  | badJson
  | otherError (msg : String)
  | exceptionDict (r : MoodleResponseErr)
  | okData (payload : String)
deriving DecidableEq, Repr

/-- Whether an outcome is caught into `last_exception` and then (for an
idempotent function with attempts left) retried; `badJson` and
`exceptionDict` raise `MoodleError` values inside the `try`, which the
`except MoodleError: raise` arm re-raises without retrying. -/
def isTransient : MoodleHttpOutcome → Bool
  | .timeout => true
  | .connError => true
  | .httpError _ => true
  | .otherError _ => true
  | _ => false

/-- The `MoodleError` stored in `last_exception` for a transient outcome
(`tstr` renders `self.timeout_seconds`). -/
def transientError (tstr : String) : MoodleHttpOutcome → MoodleExcVal
  | .timeout => ⟨.generic, "Request timeout after " ++ tstr ++ "s", none, some 504⟩
  | .connError => ⟨.generic, "Connection error to Moodle server", none, some 503⟩
  | .httpError s => ⟨.generic, "HTTP error: " ++ toString s, none, some s⟩
  | .otherError m => ⟨.generic, "Unexpected error: " ++ m, none, some 500⟩
  | _ => ⟨.generic, "", none, none⟩

/-- Observable outcome of one `_make_request_with_retry` call: result,
number of HTTP attempts actually made and the backoff sleeps, in order. -/
structure MoodleCallResult where
  result : Except MoodleExcVal String
  attempts : Nat
  sleeps : List ℚ
deriving DecidableEq, Repr

/-- The `for attempt in range(retries + 1)` loop of
`_make_request_with_retry`: `outs n` is what the `n`-th HTTP attempt runs
into.  Success returns the data; a response dict with an `exception` key
raises `_normalize_error(data)` immediately; invalid JSON raises a 502
`MoodleError` immediately; a transient outcome is retried after sleeping
`(2 ** attempt) * 0.1` seconds while attempts remain, and the last stored
exception is raised once they run out. -/
def moodleRetryGo (tstr : String) (outs : Nat → MoodleHttpOutcome) :
    Nat → Nat → MoodleCallResult
  | _, 0 => ⟨.error ⟨.generic, "", none, none⟩, 0, []⟩
  | attempt, r + 1 =>
    match outs attempt with
    | .okData payload => ⟨.ok payload, 1, []⟩
    | .exceptionDict e => ⟨.error (normalize_error e), 1, []⟩
    | .badJson =>
        ⟨.error ⟨.generic, "Invalid JSON response from Moodle", none, some 502⟩, 1, []⟩
    | o =>
      if r = 0 then ⟨.error (transientError tstr o), 1, []⟩
      else
        let rest := moodleRetryGo tstr outs (attempt + 1) r
        ⟨rest.result, rest.attempts + 1, ((2 ^ attempt : ℚ) * (1 / 10)) :: rest.sleeps⟩

/-- `MoodleService._make_request_with_retry(wsfunction, params)` with the
default `max_retries = 2`, as a function of the per-attempt outcomes. -/
def make_request_with_retry (wsfunction : String) (tstr : String)
    (outs : Nat → MoodleHttpOutcome) : MoodleCallResult :=
  moodleRetryGo tstr outs 0 (retriesFor wsfunction + 1)

/-! ## Moodle parameter encoder (`MoodleParamEncoder.encode_params`)

The encoder input is an arbitrarily nested Python structure of dicts, lists
and scalars.  It is modelled as a mutual inductive: `MVal` for one value,
`MEntries` for the entries of a dict in iteration order, `MList` for the
elements of a list.  A non-bool, non-None scalar is carried as its Python
`str(...)` rendering. -/

mutual
inductive MVal where
  | dict (entries : MEntries)
  | arr (items : MList)
  | boolean (b : Bool)
  | null
  | scalar (s : String)
deriving DecidableEq, Repr

inductive MEntries where
  | nil
  | cons (key : String) (value : MVal) (rest : MEntries)
deriving DecidableEq, Repr

inductive MList where
  | nil
  | cons (value : MVal) (rest : MList)
deriving DecidableEq, Repr
end

/-- The key built for a dict entry:
`new_key = f"{prefix}[{key}]" if prefix else key`. -/
def dictKey (pre key : String) : String :=
  if pre = "" then key else pre ++ "[" ++ key ++ "]"

/-- The key built for a list element: `new_key = f"{prefix}[{i}]"`. -/
def listKey (pre : String) (i : Nat) : String :=
  pre ++ "[" ++ toString i ++ "]"

mutual
/-- `_encode_recursive(obj, prefix)`: the sequence of `result[...] = ...`
assignments it performs, as (key, value) pairs in execution order. -/
def encodeRec : MVal → String → List (String × String)
  | .dict entries, pre => encodeEntries entries pre
  | .arr items, pre => encodeItems items 0 pre
  | .boolean b, pre => [(pre, if b then "1" else "0")]
  | .null, pre => [(pre, "")]
  | .scalar s, pre => [(pre, s)]

/-- Dict branch: recurse on each entry under `dictKey`. -/
def encodeEntries : MEntries → String → List (String × String)
  | .nil, _ => []
  | .cons k v rest, pre => encodeRec v (dictKey pre k) ++ encodeEntries rest pre

/-- List branch: recurse on each element under `listKey` with its index. -/
def encodeItems : MList → Nat → String → List (String × String)
  | .nil, _, _ => []
  | .cons v rest, i, pre => encodeRec v (listKey pre i) ++ encodeItems rest (i + 1) pre
end

/-- `MoodleParamEncoder.encode_params(data)`: the top-level call
`_encode_recursive(data)` on a dict with empty initial prefix. -/
def encode_params (data : MEntries) : List (String × String) :=
  encodeEntries data ""

/-- One step on a path from the root of the nested structure to a leaf. -/
inductive PathElem where
  | field (key : String)
  | index (i : Nat)
deriving DecidableEq, Repr

/-- Modelled from the spec: renders a leaf path as a bracketed key, growing
the prefix with `dictKey` for mapping entries and `listKey` for sequence
elements. -/
def specPathKey (pre : String) : List PathElem → String
  | [] => pre
  | .field k :: rest => specPathKey (dictKey pre k) rest
  | .index i :: rest => specPathKey (listKey pre i) rest

/-- Modelled from the spec: the string a scalar leaf encodes to — booleans to
`"1"`/`"0"`, `None` to the empty string, other scalars to their string
form. -/
def specLeafString (b : Bool) : String := if b then "1" else "0"

mutual
/-- Modelled from the spec: every scalar leaf of a nested structure together
with its access path, in depth-first order. -/
def specLeaves : MVal → List (List PathElem × String)
  | .dict entries => specLeavesEntries entries
  | .arr items => specLeavesItems items 0
  | .boolean b => [([], specLeafString b)]
  | .null => [([], "")]
  | .scalar s => [([], s)]

/-- Leaves of the entries of a mapping, each path extended by its key. -/
def specLeavesEntries : MEntries → List (List PathElem × String)
  | .nil => []
  | .cons k v rest =>
      (specLeaves v).map (fun p => (PathElem.field k :: p.1, p.2)) ++
        specLeavesEntries rest
/-- Leaves of the elements of a sequence, each path extended by its index. -/
def specLeavesItems : MList → Nat → List (List PathElem × String)
  | .nil, _ => []
  | .cons v rest, i =>
      (specLeaves v).map (fun p => (PathElem.index i :: p.1, p.2)) ++
        specLeavesItems rest (i + 1)
end

/-- The `course_data` row built for a well-formed remote Moodle course. -/
def moodleData (m : MoodleCourse) : Course :=
  { course_id := moodleKey m.id
  , name := m.fullname
  , short_name := m.shortname
  , description := m.summary.getD ""
  , category := m.categoryname.getD "General"
  , lms := "moodle"
  , external_id := toString m.id }

/-! ## Helper lemmas about the upsert loop -/

theorem updateFirst_length (db : List Course) (k : String) (d : Course) :
    (updateFirst db k d).length = db.length := by
  induction db with
  | nil => rfl
  | cons c rest ih =>
    simp only [updateFirst]
    split
    · simp
    · simp [ih]

theorem updateFirst_map_id (db : List Course) (k : String) (d : Course) :
    (updateFirst db k d).map Course.course_id = db.map Course.course_id := by
  induction db with
  | nil => rfl
  | cons c rest ih =>
    simp only [updateFirst]
    split
    · simp
    · simp [ih]

theorem find?_courseId_isSome (db : List Course) (k : String) :
    (db.find? (fun c => c.course_id == k)).isSome ↔ k ∈ db.map Course.course_id := by
  rw [List.find?_isSome]
  simp only [List.mem_map, beq_iff_eq]

/-- Counter bookkeeping of the upsert loop: every kept record bumps exactly
one of the two counters, and the table grows by exactly the number of
inserts. -/
theorem upsertLoop_counts {α : Type} (keep : α → Bool)
    (parse : α → Except PyExc Course) :
    ∀ (items : List α) (db : List Course) (s0 u0 : Nat)
      (db2 : List Course) (s u : Nat),
      upsertLoop keep parse db items s0 u0 = .ok (db2, s, u) →
      s + u = s0 + u0 + items.countP keep ∧ db2.length + s0 = db.length + s := by
  intro items
  induction items with
  | nil =>
    intro db s0 u0 db2 s u h
    simp only [upsertLoop] at h
    cases h
    simp
  | cons x rest ih =>
    intro db s0 u0 db2 s u h
    simp only [upsertLoop] at h
    by_cases hk : keep x
    · rw [if_pos hk] at h
      cases hp : parse x with
      | error e => rw [hp] at h; cases h
      | ok data =>
        rw [hp] at h
        dsimp only at h
        cases hf : db.find? (fun c => c.course_id == data.course_id) with
        | some c =>
          rw [hf] at h
          have := ih (updateFirst db data.course_id data) s0 (u0 + 1) db2 s u h
          rw [updateFirst_length] at this
          constructor
          · rw [List.countP_cons_of_pos _ _ hk]; omega
          · omega
        | none =>
          rw [hf] at h
          have := ih (db ++ [data]) (s0 + 1) u0 db2 s u h
          rw [List.length_append] at this
          constructor
          · rw [List.countP_cons_of_pos _ _ hk]; omega
          · simp only [List.length_cons, List.length_nil] at this; omega
    · rw [if_neg hk] at h
      have := ih db s0 u0 db2 s u h
      rw [List.countP_cons_of_neg _ _ (by simpa using hk)]
      exact this

theorem parseMoodleCourse_toJson (m : MoodleCourse) :
    parseMoodleCourse (MoodleCourse.toJson m) = .ok (moodleData m) := rfl

/-- The key field of the built row is the synthesized Moodle key. -/
theorem moodleData_course_id (m : MoodleCourse) :
    (moodleData m).course_id = moodleKey m.id := rfl

/-- Running the upsert loop over a list of well-formed Moodle courses always
succeeds; afterwards every existing key is still present, the key of every
processed course is present, and key uniqueness is preserved. -/
theorem moodleLoop_spec :
    ∀ (L : List MoodleCourse) (db : List Course) (s0 u0 : Nat),
      ∃ db2 s u,
        upsertLoop (fun _ => true) parseMoodleCourse db
            (L.map MoodleCourse.toJson) s0 u0 = .ok (db2, s, u) ∧
        (∀ k, k ∈ db.map Course.course_id → k ∈ db2.map Course.course_id) ∧
        (∀ m ∈ L, moodleKey m.id ∈ db2.map Course.course_id) ∧
        ((db.map Course.course_id).Nodup → (db2.map Course.course_id).Nodup) := by
  intro L
  induction L with
  | nil =>
    intro db s0 u0
    exact ⟨db, s0, u0, rfl, fun k hk => hk, by simp, fun h => h⟩
  | cons m rest ih =>
    intro db s0 u0
    simp only [List.map_cons, upsertLoop, if_pos, parseMoodleCourse_toJson,
      moodleData_course_id]
    cases hf : db.find? (fun c => c.course_id == moodleKey m.id) with
    | some c =>
      obtain ⟨db2, s, u, heq, hmono, hall, hnd⟩ :=
        ih (updateFirst db (moodleKey m.id) (moodleData m)) s0 (u0 + 1)
      refine ⟨db2, s, u, heq, ?_, ?_, ?_⟩
      · intro k hk
        exact hmono k (by rwa [updateFirst_map_id])
      · intro m2 hm2
        rcases List.mem_cons.mp hm2 with heq2 | h
        · apply hmono
          rw [updateFirst_map_id, heq2, ← find?_courseId_isSome, hf]
          rfl
        · exact hall m2 h
      · intro h
        apply hnd
        rwa [updateFirst_map_id]
    | none =>
      obtain ⟨db2, s, u, heq, hmono, hall, hnd⟩ := ih (db ++ [moodleData m]) (s0 + 1) u0
      have hnotmem : moodleKey m.id ∉ db.map Course.course_id := by
        intro hmem
        rw [← find?_courseId_isSome, hf] at hmem
        cases hmem
      refine ⟨db2, s, u, heq, ?_, ?_, ?_⟩
      · intro k hk
        exact hmono k (by simp [hk])
      · intro m2 hm2
        rcases List.mem_cons.mp hm2 with heq2 | h
        · rw [heq2]
          exact hmono _ (by simp [moodleData_course_id])
        · exact hall m2 h
      · intro h
        apply hnd
        rw [List.map_append, List.nodup_append]
        refine ⟨h, List.nodup_singleton _, ?_⟩
        simpa [moodleData_course_id] using hnotmem

/-- When every processed key is already present, the loop only updates:
no row is inserted, `synced` stays, `updated` grows by the list length, and
the sequence of keys in the table is unchanged. -/
theorem moodleLoop_all_present :
    ∀ (L : List MoodleCourse) (db : List Course) (s0 u0 : Nat),
      (∀ m ∈ L, moodleKey m.id ∈ db.map Course.course_id) →
      ∃ db2,
        upsertLoop (fun _ => true) parseMoodleCourse db
            (L.map MoodleCourse.toJson) s0 u0 = .ok (db2, s0, u0 + L.length) ∧
        db2.map Course.course_id = db.map Course.course_id := by
  intro L
  induction L with
  | nil =>
    intro db s0 u0 _
    exact ⟨db, rfl, rfl⟩
  | cons m rest ih =>
    intro db s0 u0 hpres
    simp only [List.map_cons, upsertLoop, if_pos, parseMoodleCourse_toJson,
      moodleData_course_id]
    have hmem : moodleKey m.id ∈ db.map Course.course_id :=
      hpres m (List.mem_cons_self m rest)
    rw [← find?_courseId_isSome] at hmem
    cases hf : db.find? (fun c => c.course_id == moodleKey m.id) with
    | none => rw [hf] at hmem; cases hmem
    | some c =>
      obtain ⟨db2, heq, hids⟩ :=
        ih (updateFirst db (moodleKey m.id) (moodleData m)) s0 (u0 + 1)
          (by
            intro m2 hm2
            rw [updateFirst_map_id]
            exact hpres m2 (List.mem_cons_of_mem m hm2))
      refine ⟨db2, ?_, ?_⟩
      · rw [heq]
        have harith : u0 + 1 + rest.length = u0 + (rest.length + 1) := by omega
        rw [harith]
        rfl
      · rw [hids, updateFirst_map_id]

theorem countP_field_eq_count_map (db : List Course) (k : String) :
    db.countP (fun c => c.course_id == k) = (db.map Course.course_id).count k := by
  induction db with
  | nil => rfl
  | cons c rest ih =>
    simp only [List.countP_cons, List.map_cons, List.count_cons, ih]

/-! ## The claims -/

/-- C1: running `sync_moodle_courses` twice against the same unchanged remote
course list leaves exactly one local `Course` row per remote course, keyed by
the synthesized `course_id` string `"moodle_{external_id}"`, and the second
run reports `synced = 0` and `updated = total_processed = |L|`.  The starting
table satisfies the schema invariant that `course_id` values are unique. -/
theorem C1_sync_moodle_idempotent (db0 : List Course) (L : List MoodleCourse)
    (hnd : (db0.map Course.course_id).Nodup) :
    ∃ db1 r1 db2 r2,
      sync_moodle_courses_run db0 (.ok (L.map MoodleCourse.toJson)) = (db1, .ok r1) ∧
      sync_moodle_courses_run db1 (.ok (L.map MoodleCourse.toJson)) = (db2, .ok r2) ∧
      (∀ m ∈ L, db2.countP (fun c => c.course_id == moodleKey m.id) = 1) ∧
      r2.synced = 0 ∧ r2.updated = L.length ∧ r2.total_processed = L.length := by
  obtain ⟨db1, s1, u1, heq1, hmono1, hall1, hnd1⟩ := moodleLoop_spec L db0 0 0
  obtain ⟨db2, heq2, hids2⟩ := moodleLoop_all_present L db1 0 0 hall1
  refine ⟨db1, ⟨"success", s1, u1, (L.map MoodleCourse.toJson).length⟩,
          db2, ⟨"success", 0, 0 + L.length, (L.map MoodleCourse.toJson).length⟩,
          ?_, ?_, ?_, rfl, by simp, by simp⟩
  · simp only [sync_moodle_courses_run, heq1]
  · simp only [sync_moodle_courses_run, heq2]
  · intro m hm
    have hmem2 : moodleKey m.id ∈ db2.map Course.course_id := by
      rw [hids2]; exact hall1 m hm
    have hnd2 : (db2.map Course.course_id).Nodup := by
      rw [hids2]; exact hnd1 hnd
    rw [countP_field_eq_count_map]
    exact List.count_eq_one_of_mem hnd2 hmem2

/-- Witness for C1: one remote course, empty initial table. -/
theorem C1_sync_moodle_idempotent_witness :
    (([] : List Course).map Course.course_id).Nodup ∧
    (∃ db1 r1 db2 r2,
      sync_moodle_courses_run []
          (.ok (([⟨1, "A", "a", none, none⟩] : List MoodleCourse).map
            MoodleCourse.toJson)) = (db1, .ok r1) ∧
      sync_moodle_courses_run db1
          (.ok (([⟨1, "A", "a", none, none⟩] : List MoodleCourse).map
            MoodleCourse.toJson)) = (db2, .ok r2) ∧
      (∀ m ∈ ([⟨1, "A", "a", none, none⟩] : List MoodleCourse),
        db2.countP (fun c => c.course_id == moodleKey m.id) = 1) ∧
      r2.synced = 0 ∧
      r2.updated = ([⟨1, "A", "a", none, none⟩] : List MoodleCourse).length ∧
      r2.total_processed = ([⟨1, "A", "a", none, none⟩] : List MoodleCourse).length) :=
  ⟨by decide, C1_sync_moodle_idempotent [] [⟨1, "A", "a", none, none⟩] (by decide)⟩

/-- C10: every `sync_<platform>_courses` run (Moodle, Canvas, Sakai, Chamilo)
that completes without exception returns counts with
`synced + updated = total_processed` and `status = success`, and each remote
course counted in `total_processed` produced exactly one row insert (counted
in `synced`) or one in-place update (counted in `updated`), so the table
grows by exactly `synced` rows. -/
theorem C10_sync_counts_invariant :
    (∀ (db db2 : List Course) (f : MoodleFetch) (r : SyncResult),
        sync_moodle_courses_run db f = (db2, .ok r) →
        r.status = "success" ∧ r.synced + r.updated = r.total_processed ∧
          db2.length = db.length + r.synced) ∧
    (∀ (db db2 : List Course) (f : CanvasFetch) (r : SyncResult),
        sync_canvas_courses_run db f = (db2, .ok r) →
        r.status = "success" ∧ r.synced + r.updated = r.total_processed ∧
          db2.length = db.length + r.synced) ∧
    (∀ (db db2 : List Course) (f : SakaiFetch) (r : SyncResult),
        sync_sakai_courses_run db f = (db2, .ok r) →
        r.status = "success" ∧ r.synced + r.updated = r.total_processed ∧
          db2.length = db.length + r.synced) ∧
    (∀ (db db2 : List Course) (f : ChamiloFetch) (r : SyncResult),
        sync_chamilo_courses_run db f = (db2, .ok r) →
        r.status = "success" ∧ r.synced + r.updated = r.total_processed ∧
          db2.length = db.length + r.synced) := by
  refine ⟨?_, ?_, ?_, ?_⟩
  · intro db db2 f r h
    cases f with
    | reqError m => simp [sync_moodle_courses_run] at h
    | apiException m => simp [sync_moodle_courses_run] at h
    | ok courses =>
      simp only [sync_moodle_courses_run] at h
      cases hloop : upsertLoop (fun _ => true) parseMoodleCourse db courses 0 0 with
      | error e => rw [hloop] at h; cases h
      | ok res =>
        obtain ⟨d, s, u⟩ := res
        rw [hloop] at h
        obtain ⟨h1, h2⟩ := Prod.mk.injEq .. ▸ h
        cases h2
        obtain ⟨hc, hl⟩ := upsertLoop_counts _ _ courses db 0 0 d s u hloop
        subst h1
        refine ⟨rfl, ?_, by dsimp only; omega⟩
        simpa using hc
  · intro db db2 f r h
    cases f with
    | reqError m => simp [sync_canvas_courses_run] at h
    | ok courses =>
      simp only [sync_canvas_courses_run] at h
      cases hloop : upsertLoop (fun _ => true) parseCanvasCourse db courses 0 0 with
      | error e => rw [hloop] at h; cases h
      | ok res =>
        obtain ⟨d, s, u⟩ := res
        rw [hloop] at h
        obtain ⟨h1, h2⟩ := Prod.mk.injEq .. ▸ h
        cases h2
        obtain ⟨hc, hl⟩ := upsertLoop_counts _ _ courses db 0 0 d s u hloop
        subst h1
        refine ⟨rfl, ?_, by dsimp only; omega⟩
        simpa using hc
  · intro db db2 f r h
    cases f with
    | reqError m => simp [sync_sakai_courses_run] at h
    | ok sites =>
      simp only [sync_sakai_courses_run] at h
      cases hloop : upsertLoop sakaiKeep parseSakaiSite db sites 0 0 with
      | error e => rw [hloop] at h; cases h
      | ok res =>
        obtain ⟨d, s, u⟩ := res
        rw [hloop] at h
        obtain ⟨h1, h2⟩ := Prod.mk.injEq .. ▸ h
        cases h2
        obtain ⟨hc, hl⟩ := upsertLoop_counts _ _ sites db 0 0 d s u hloop
        subst h1
        refine ⟨rfl, ?_, by dsimp only; omega⟩
        simpa using hc
  · intro db db2 f r h
    cases f with
    | reqError m => simp [sync_chamilo_courses_run] at h
    | notSuccess m => simp [sync_chamilo_courses_run] at h
    | ok courses =>
      simp only [sync_chamilo_courses_run] at h
      cases hloop : upsertLoop (fun _ => true) parseChamiloCourse db courses 0 0 with
      | error e => rw [hloop] at h; cases h
      | ok res =>
        obtain ⟨d, s, u⟩ := res
        rw [hloop] at h
        obtain ⟨h1, h2⟩ := Prod.mk.injEq .. ▸ h
        cases h2
        obtain ⟨hc, hl⟩ := upsertLoop_counts _ _ courses db 0 0 d s u hloop
        subst h1
        refine ⟨rfl, ?_, by dsimp only; omega⟩
        simpa using hc

/-- Witness for C10: a Moodle run over one remote course from an empty
table. -/
theorem C10_sync_counts_invariant_witness :
    (⟨"success", 1, 0, 1⟩ : SyncResult).status = "success" ∧
    (⟨"success", 1, 0, 1⟩ : SyncResult).synced +
        (⟨"success", 1, 0, 1⟩ : SyncResult).updated =
      (⟨"success", 1, 0, 1⟩ : SyncResult).total_processed ∧
    ([⟨"moodle_1", "A", "a", "", "General", "moodle", "1"⟩] : List Course).length =
      ([] : List Course).length + (⟨"success", 1, 0, 1⟩ : SyncResult).synced :=
  C10_sync_counts_invariant.1 []
    [⟨"moodle_1", "A", "a", "", "General", "moodle", "1"⟩]
    (.ok [MoodleCourse.toJson ⟨1, "A", "a", none, none⟩])
    ⟨"success", 1, 0, 1⟩ (by decide)

mutual
/-- The encoder emits exactly the spec-described leaves of a value. -/
theorem encodeRec_eq_specLeaves : ∀ (v : MVal) (pre : String),
    encodeRec v pre = (specLeaves v).map (fun p => (specPathKey pre p.1, p.2))
  | .dict es, pre => by
      rw [encodeRec, specLeaves, encodeEntries_eq_specLeaves es pre]
  | .arr items, pre => by
      rw [encodeRec, specLeaves, encodeItems_eq_specLeaves items 0 pre]
  | .boolean b, pre => rfl
  | .null, pre => rfl
  | .scalar s, pre => rfl

/-- Dict-entry form of `encodeRec_eq_specLeaves`. -/
theorem encodeEntries_eq_specLeaves : ∀ (es : MEntries) (pre : String),
    encodeEntries es pre =
      (specLeavesEntries es).map (fun p => (specPathKey pre p.1, p.2))
  | .nil, pre => rfl
  | .cons k v rest, pre => by
      rw [encodeEntries, specLeavesEntries, List.map_append,
        encodeRec_eq_specLeaves v (dictKey pre k),
        encodeEntries_eq_specLeaves rest pre, List.map_map]
      rfl

/-- List-element form of `encodeRec_eq_specLeaves`, for any starting index. -/
theorem encodeItems_eq_specLeaves : ∀ (items : MList) (i : Nat) (pre : String),
    encodeItems items i pre =
      (specLeavesItems items i).map (fun p => (specPathKey pre p.1, p.2))
  | .nil, i, pre => rfl
  | .cons v rest, i, pre => by
      rw [encodeItems, specLeavesItems, List.map_append,
        encodeRec_eq_specLeaves v (listKey pre i),
        encodeItems_eq_specLeaves rest (i + 1) pre, List.map_map]
      rfl
end

/-- C3: `MoodleParamEncoder.encode_params` maps the fixture of one course
entry with fullname Test and shortname TEST to exactly the two pairs
`courses[0][fullname] = Test` and `courses[0][shortname] = TEST`, and the
fixture of active = True, note = None to exactly the pairs `active = 1` and
`note = ` (empty string); in general every encoded pair is a leaf of the
nested structure, keyed by its access path rendered with `prefix[key]` for
mapping entries and `prefix[i]` for sequence elements, with booleans sent to
`1`/`0`, `None` to the empty string and other scalars to their string
form. -/
theorem C3_encode_params_bracketed :
    encode_params (.cons "courses"
        (.arr (.cons (.dict (.cons "fullname" (.scalar "Test")
          (.cons "shortname" (.scalar "TEST") .nil))) .nil)) .nil) =
      [("courses[0][fullname]", "Test"), ("courses[0][shortname]", "TEST")] ∧
    encode_params (.cons "active" (.boolean true) (.cons "note" .null .nil)) =
      [("active", "1"), ("note", "")] ∧
    ∀ (v : MVal) (pre : String),
      encodeRec v pre = (specLeaves v).map (fun p => (specPathKey pre p.1, p.2)) :=
  ⟨by decide, by decide, encodeRec_eq_specLeaves⟩

/-- C4: `_normalize_error` maps errorcode invalidtoken to a `MoodleAuthError`
with status 401 and errorcode invalidparameter to a `MoodleValidationError`
with status 400; every errorcode outside the three known tables yields the
generic `MoodleError` with status 500; and `_make_request_with_retry` applies
the normalization to every parsed response dict carrying an exception key. -/
theorem C4_normalize_error_table :
    normalize_error ⟨some "invalidtoken", some "m"⟩ =
      ⟨.auth, "Invalid Moodle token", some "invalidtoken", some 401⟩ ∧
    normalize_error ⟨some "invalidparameter", some "m"⟩ =
      ⟨.validation, "Validation error: m", some "invalidparameter", some 400⟩ ∧
    (∀ r : MoodleResponseErr,
      r.errorcode.getD "unknown" ∉ AUTH_ERRORS →
      r.errorcode.getD "unknown" ∉ VALIDATION_ERRORS →
      r.errorcode.getD "unknown" ∉ NOT_FOUND_ERRORS →
      (normalize_error r).kind = .generic ∧
        (normalize_error r).status_code = some 500) ∧
    (∀ (ws tstr : String) (outs : Nat → MoodleHttpOutcome)
        (r : MoodleResponseErr),
      outs 0 = .exceptionDict r →
      (make_request_with_retry ws tstr outs).result =
        .error (normalize_error r)) := by
  refine ⟨by decide, by decide, ?_, ?_⟩
  · intro r h1 h2 h3
    simp only [normalize_error]
    rw [if_neg h1, if_neg h2, if_neg h3]
    exact ⟨rfl, rfl⟩
  · intro ws tstr outs r h
    simp only [make_request_with_retry, moodleRetryGo, h]

/-- Witness for C4: an unrecognized errorcode on a non-idempotent call. -/
theorem C4_normalize_error_table_witness :
    ((normalize_error ⟨some "strange_code", none⟩).kind = .generic ∧
      (normalize_error ⟨some "strange_code", none⟩).status_code = some 500) ∧
    (make_request_with_retry "core_course_create_courses" "15.0"
        (fun _ => .exceptionDict ⟨some "strange_code", none⟩)).result =
      .error (normalize_error ⟨some "strange_code", none⟩) :=
  ⟨C4_normalize_error_table.2.2.1 ⟨some "strange_code", none⟩
      (by decide) (by decide) (by decide),
    C4_normalize_error_table.2.2.2 "core_course_create_courses" "15.0"
      (fun _ => .exceptionDict ⟨some "strange_code", none⟩)
      ⟨some "strange_code", none⟩ rfl⟩

theorem moodleRetryGo_attempts_pos (tstr : String)
    (outs : Nat → MoodleHttpOutcome) :
    ∀ (fuel a : Nat), 1 ≤ fuel → 1 ≤ (moodleRetryGo tstr outs a fuel).attempts := by
  intro fuel a hf
  match fuel, hf with
  | f + 1, _ =>
    cases h : outs a <;> simp only [moodleRetryGo, h] <;> (try split) <;> simp

/-- At every point of the retry loop, the sleeps performed so far follow the
exponential schedule `(2 ** attempt) * 0.1`, one sleep before each retry. -/
theorem moodleRetryGo_sleeps (tstr : String) (outs : Nat → MoodleHttpOutcome) :
    ∀ (fuel a : Nat),
      (moodleRetryGo tstr outs a fuel).attempts ≤ fuel ∧
      (moodleRetryGo tstr outs a fuel).sleeps =
        (List.range ((moodleRetryGo tstr outs a fuel).attempts - 1)).map
          (fun i => (2 ^ (a + i) : ℚ) * (1 / 10)) := by
  intro fuel
  induction fuel with
  | zero => intro a; exact ⟨Nat.le_refl 0, rfl⟩
  | succ f ih =>
    intro a
    cases h : outs a with
    | okData payload => simp [moodleRetryGo, h]
    | exceptionDict e => simp [moodleRetryGo, h]
    | badJson => simp [moodleRetryGo, h]
    | timeout =>
      simp only [moodleRetryGo, h]
      split
      · simp
      · obtain ⟨hle, hsl⟩ := ih (a + 1)
        have hpos : 1 ≤ (moodleRetryGo tstr outs (a + 1) f).attempts :=
          moodleRetryGo_attempts_pos tstr outs f (a + 1) (by omega)
        refine ⟨by simpa using Nat.add_le_add_right hle 1, ?_⟩
        simp only [hsl]
        have hr : (moodleRetryGo tstr outs (a + 1) f).attempts + 1 - 1 =
            ((moodleRetryGo tstr outs (a + 1) f).attempts - 1) + 1 := by omega
        rw [hr, List.range_succ_eq_map, List.map_cons, List.map_map]
        refine congrArg₂ _ (by simp) ?_
        refine congrArg (fun g => List.map g _) ?_
        funext i
        have : a + 1 + i = a + (i + 1) := by omega
        simp [Function.comp, this]
    | connError =>
      simp only [moodleRetryGo, h]
      split
      · simp
      · obtain ⟨hle, hsl⟩ := ih (a + 1)
        have hpos : 1 ≤ (moodleRetryGo tstr outs (a + 1) f).attempts :=
          moodleRetryGo_attempts_pos tstr outs f (a + 1) (by omega)
        refine ⟨by simpa using Nat.add_le_add_right hle 1, ?_⟩
        simp only [hsl]
        have hr : (moodleRetryGo tstr outs (a + 1) f).attempts + 1 - 1 =
            ((moodleRetryGo tstr outs (a + 1) f).attempts - 1) + 1 := by omega
        rw [hr, List.range_succ_eq_map, List.map_cons, List.map_map]
        refine congrArg₂ _ (by simp) ?_
        refine congrArg (fun g => List.map g _) ?_
        funext i
        have : a + 1 + i = a + (i + 1) := by omega
        simp [Function.comp, this]
    | httpError s =>
      simp only [moodleRetryGo, h]
      split
      · simp
      · obtain ⟨hle, hsl⟩ := ih (a + 1)
        have hpos : 1 ≤ (moodleRetryGo tstr outs (a + 1) f).attempts :=
          moodleRetryGo_attempts_pos tstr outs f (a + 1) (by omega)
        refine ⟨by simpa using Nat.add_le_add_right hle 1, ?_⟩
        simp only [hsl]
        have hr : (moodleRetryGo tstr outs (a + 1) f).attempts + 1 - 1 =
            ((moodleRetryGo tstr outs (a + 1) f).attempts - 1) + 1 := by omega
        rw [hr, List.range_succ_eq_map, List.map_cons, List.map_map]
        refine congrArg₂ _ (by simp) ?_
        refine congrArg (fun g => List.map g _) ?_
        funext i
        have : a + 1 + i = a + (i + 1) := by omega
        simp [Function.comp, this]
    | otherError m =>
      simp only [moodleRetryGo, h]
      split
      · simp
      · obtain ⟨hle, hsl⟩ := ih (a + 1)
        have hpos : 1 ≤ (moodleRetryGo tstr outs (a + 1) f).attempts :=
          moodleRetryGo_attempts_pos tstr outs f (a + 1) (by omega)
        refine ⟨by simpa using Nat.add_le_add_right hle 1, ?_⟩
        simp only [hsl]
        have hr : (moodleRetryGo tstr outs (a + 1) f).attempts + 1 - 1 =
            ((moodleRetryGo tstr outs (a + 1) f).attempts - 1) + 1 := by omega
        rw [hr, List.range_succ_eq_map, List.map_cons, List.map_map]
        refine congrArg₂ _ (by simp) ?_
        refine congrArg (fun g => List.map g _) ?_
        funext i
        have : a + 1 + i = a + (i + 1) := by omega
        simp [Function.comp, this]

/-- A response dict with an exception key stops the loop at once: the
normalized error is raised and no further attempt is made. -/
theorem moodleRetryGo_exception (tstr : String) (outs : Nat → MoodleHttpOutcome) :
    ∀ (j fuel a : Nat) (r : MoodleResponseErr), j < fuel →
      (∀ k, k < j → isTransient (outs (a + k)) = true) →
      outs (a + j) = .exceptionDict r →
      (moodleRetryGo tstr outs a fuel).result = .error (normalize_error r) ∧
      (moodleRetryGo tstr outs a fuel).attempts = j + 1 := by
  intro j
  induction j with
  | zero =>
    intro fuel a r hj _ hout
    match fuel, hj with
    | f + 1, _ =>
      rw [Nat.add_zero] at hout
      simp [moodleRetryGo, hout]
  | succ j ih =>
    intro fuel a r hj htr hout
    match fuel, hj with
    | f + 1, _ =>
      have h0 : isTransient (outs a) = true := by
        have := htr 0 (Nat.succ_pos j)
        simpa using this
      have hfne : ¬ f = 0 := by omega
      have hrec := ih f (a + 1) r (by omega)
        (by
          intro k hk
          have := htr (k + 1) (by omega)
          have harr : a + (k + 1) = a + 1 + k := by omega
          rwa [harr] at this)
        (by
          have harr : a + (j + 1) = a + 1 + j := by omega
          rwa [harr] at hout)
      cases h : outs a with
      | okData payload =>
        rw [h] at h0
        simp [isTransient] at h0
      | exceptionDict e2 =>
        rw [h] at h0
        simp [isTransient] at h0
      | badJson =>
        rw [h] at h0
        simp [isTransient] at h0
      | timeout =>
        simp only [moodleRetryGo, h, if_neg hfne]
        exact ⟨hrec.1, by rw [hrec.2]⟩
      | connError =>
        simp only [moodleRetryGo, h, if_neg hfne]
        exact ⟨hrec.1, by rw [hrec.2]⟩
      | httpError s2 =>
        simp only [moodleRetryGo, h, if_neg hfne]
        exact ⟨hrec.1, by rw [hrec.2]⟩
      | otherError m2 =>
        simp only [moodleRetryGo, h, if_neg hfne]
        exact ⟨hrec.1, by rw [hrec.2]⟩

/-- C5: in the Moodle client, a wsfunction outside the idempotent allow-list
makes exactly one HTTP attempt on a transport timeout (typed 504 error) or
connection error (typed 503 error) with no retry and no sleep; an allow-listed
wsfunction makes at most 2 additional attempts, sleeping
`0.1 * 2 ** attempt` seconds before each retry; and a response dict carrying
an exception key is never retried, whatever the function. -/
theorem C5_idempotent_retry_policy :
    (∀ (ws tstr : String) (outs : Nat → MoodleHttpOutcome),
      ws ∉ IDEMPOTENT_FUNCTIONS →
      (outs 0 = .timeout →
        make_request_with_retry ws tstr outs =
          ⟨.error ⟨.generic, "Request timeout after " ++ tstr ++ "s", none,
            some 504⟩, 1, []⟩) ∧
      (outs 0 = .connError →
        make_request_with_retry ws tstr outs =
          ⟨.error ⟨.generic, "Connection error to Moodle server", none,
            some 503⟩, 1, []⟩)) ∧
    (∀ (ws tstr : String) (outs : Nat → MoodleHttpOutcome),
      ws ∈ IDEMPOTENT_FUNCTIONS →
      (make_request_with_retry ws tstr outs).attempts ≤ 3 ∧
      (make_request_with_retry ws tstr outs).sleeps =
        (List.range ((make_request_with_retry ws tstr outs).attempts - 1)).map
          (fun i => (1 / 10 : ℚ) * 2 ^ i)) ∧
    (∀ (ws tstr : String) (outs : Nat → MoodleHttpOutcome) (j : Nat)
        (r : MoodleResponseErr),
      j < retriesFor ws + 1 →
      (∀ k, k < j → isTransient (outs k) = true) →
      outs j = .exceptionDict r →
      (make_request_with_retry ws tstr outs).result =
        .error (normalize_error r) ∧
      (make_request_with_retry ws tstr outs).attempts = j + 1) := by
  refine ⟨?_, ?_, ?_⟩
  · intro ws tstr outs h
    have hr : retriesFor ws = 0 := by simp [retriesFor, h]
    constructor <;> intro hout <;>
      simp [make_request_with_retry, hr, moodleRetryGo, hout, transientError]
  · intro ws tstr outs h
    have hr : retriesFor ws = 2 := by simp [retriesFor, h]
    obtain ⟨hle, hsl⟩ := moodleRetryGo_sleeps tstr outs (retriesFor ws + 1) 0
    refine ⟨by simpa [make_request_with_retry, hr] using hle, ?_⟩
    have hfun : (fun i => ((2 : ℚ) ^ (0 + i)) * (1 / 10)) =
        (fun i => (1 / 10 : ℚ) * 2 ^ i) := by
      funext i
      rw [Nat.zero_add, mul_comm]
    simp only [make_request_with_retry] at hsl ⊢
    rw [hsl, hfun]
  · intro ws tstr outs j r hj htr hout
    have htr2 : ∀ k, k < j → isTransient (outs (0 + k)) = true := by
      intro k hk
      rw [Nat.zero_add]
      exact htr k hk
    have hout2 : outs (0 + j) = .exceptionDict r := by rwa [Nat.zero_add]
    exact moodleRetryGo_exception tstr outs j (retriesFor ws + 1) 0 r hj htr2 hout2

/-- Witness for C5: a non-idempotent create call timing out once, an
idempotent get-courses call timing out throughout, and an exception response
on the second attempt of an idempotent call. -/
theorem C5_idempotent_retry_policy_witness :
    make_request_with_retry "core_course_create_courses" "15.0"
        (fun _ => .timeout) =
      ⟨.error ⟨.generic, "Request timeout after 15.0s", none, some 504⟩,
        1, []⟩ ∧
    (make_request_with_retry "core_course_get_courses" "15.0"
        (fun _ => .timeout)).attempts ≤ 3 ∧
    (make_request_with_retry "core_course_get_courses" "15.0"
        (fun n => if n = 0 then .timeout
          else .exceptionDict ⟨some "invalidtoken", some "m"⟩)).attempts =
      1 + 1 :=
  ⟨(C5_idempotent_retry_policy.1 "core_course_create_courses" "15.0"
      (fun _ => .timeout) (by decide)).1 rfl,
   (C5_idempotent_retry_policy.2.1 "core_course_get_courses" "15.0"
      (fun _ => .timeout) (by decide)).1,
   (C5_idempotent_retry_policy.2.2 "core_course_get_courses" "15.0"
      (fun n => if n = 0 then .timeout
        else .exceptionDict ⟨some "invalidtoken", some "m"⟩) 1
      ⟨some "invalidtoken", some "m"⟩ (by decide)
      (by intro k hk; have hk0 : k = 0 := (by omega); subst hk0; rfl) rfl).2⟩

/-- C6: a function raising matching exceptions on its first two invocations
and succeeding on the third, wrapped with `with_retry(max_attempts = 3)`, is
invoked exactly 3 times and the wrapper returns the success value; the delay
slept before 0-indexed retry `i` is `min(backoff_factor * 2 ** i, max_delay)`
in exponential mode, there is no delay after the final attempt, and for
backoff factor 1 (with the default max_delay 300) the total sleep is
`1 * (1 + 2)`. -/
theorem withRetryGo_err_retry {ρ : Type} {b maxD : ℚ} {expo : Bool}
    {m : PyExc → Bool} {f : Nat → Except PyExc ρ} {attempt r : Nat} {e : PyExc}
    (h : f attempt = .error e) (hm : m e = true) (hr : ¬ r = 0) :
    withRetryGo b maxD expo m f attempt (r + 1) =
      ⟨(withRetryGo b maxD expo m f (attempt + 1) r).result,
       (withRetryGo b maxD expo m f (attempt + 1) r).calls + 1,
       retryDelay expo b maxD attempt ::
         (withRetryGo b maxD expo m f (attempt + 1) r).sleeps⟩ := by
  simp [withRetryGo, h, hm, hr]

theorem C6_with_retry_three_attempts :
    ∀ (ρ : Type) (f : Nat → Except PyExc ρ) (excMatch : PyExc → Bool)
      (b maxD : ℚ) (e1 e2 : PyExc) (v : ρ),
      excMatch e1 = true → excMatch e2 = true →
      f 0 = .error e1 → f 1 = .error e2 → f 2 = .ok v →
      withRetryCall 3 b maxD true excMatch f =
        ⟨.ok v, 3, [min (b * 2 ^ 0) maxD, min (b * 2 ^ 1) maxD]⟩ ∧
      (b = 1 → maxD = 300 →
        (withRetryCall 3 b maxD true excMatch f).sleeps.sum = 1 * (1 + 2)) := by
  intro ρ f excMatch b maxD e1 e2 v hm1 hm2 h0 h1 h2
  have t2 : withRetryGo b maxD true excMatch f 2 1 = ⟨.ok v, 1, []⟩ := by
    show withRetryGo b maxD true excMatch f 2 (0 + 1) = _
    simp [withRetryGo, h2]
  have t1 : withRetryGo b maxD true excMatch f 1 2 =
      ⟨.ok v, 2, [retryDelay true b maxD 1]⟩ := by
    show withRetryGo b maxD true excMatch f 1 (1 + 1) = _
    rw [withRetryGo_err_retry h1 hm2 (by omega), t2]
  have hmain : withRetryCall 3 b maxD true excMatch f =
      ⟨.ok v, 3, [min (b * 2 ^ 0) maxD, min (b * 2 ^ 1) maxD]⟩ := by
    show withRetryGo b maxD true excMatch f 0 (2 + 1) = _
    rw [withRetryGo_err_retry h0 hm1 (by omega), t1]
    simp [retryDelay]
  refine ⟨hmain, ?_⟩
  intro hb hd
  subst hb
  subst hd
  rw [hmain]
  norm_num

/-- Witness for C6: failing twice with a generic error, then returning 5. -/
theorem C6_with_retry_three_attempts_witness :
    withRetryCall 3 1 300 true (fun _ => true)
        (fun n => if n < 2 then .error (.generic "boom") else .ok (5 : Nat)) =
      ⟨.ok 5, 3, [min (1 * 2 ^ 0) 300, min (1 * 2 ^ 1) 300]⟩ ∧
    ((1 : ℚ) = 1 → (300 : ℚ) = 300 →
      (withRetryCall 3 1 300 true (fun _ => true)
        (fun n => if n < 2 then .error (.generic "boom")
          else .ok (5 : Nat))).sleeps.sum = 1 * (1 + 2)) :=
  C6_with_retry_three_attempts Nat
    (fun n => if n < 2 then .error (.generic "boom") else .ok 5)
    (fun _ => true) 1 300 (.generic "boom") (.generic "boom") 5
    rfl rfl rfl rfl rfl

/-- C2 (code behaviour at the failing input): five consecutive failures at
times 0..4 open the circuit (threshold 5, recovery timeout 300 s); the next
call arrives 86400 s (exactly one day) after the last failure, so the real
elapsed time exceeds the recovery timeout, yet the code computes
`(now - last_failure_time).seconds = 86400 % 86400 = 0 < 300`, keeps the
circuit open, and raises the fail-fast error without invoking the wrapped
function — the claimed recovery for every elapsed time `d >= t` does not
hold. -/
theorem C2_circuit_breaker_day_wrap :
    List.foldl
        (fun st t => (circuitBreakerCall "sync_moodle_courses" 5 300 st t
          (.error (PyExc.requestException "boom") : Except PyExc Nat)).state)
        freshCircuit [0, 1, 2, 3, 4] = ⟨5, some 4, "open"⟩ ∧
    circuitBreakerCall "sync_moodle_courses" 5 300 ⟨5, some 4, "open"⟩
        (4 + 86400) (.ok (0 : Nat)) =
      ⟨.error (circuitOpenError "sync_moodle_courses"), ⟨5, some 4, "open"⟩,
        false⟩ ∧
    timedeltaSeconds (4 + 86400 - 4) = 0 ∧
    300 ≤ 4 + 86400 - 4 := by decide

/-- C7 counterexample: a transport timeout inside `sync_moodle_courses` does
NOT propagate unmodified — the `except requests.RequestException` arm raises
a fresh plain `Exception` wrapping the message, so neither the type nor the
message of the original exception is preserved. -/
theorem C7_counterexample_wrapped_exception :
    (sync_moodle_courses_run [] (.reqError "timeout")).2 =
      .error (.generic "Failed to connect to Moodle: timeout") ∧
    PyExc.generic "Failed to connect to Moodle: timeout" ≠
      PyExc.requestException "timeout" := by decide

/-- C7 amended: when the remote call fails with a requests-level error before
the commit, the error surfaces wrapped as a plain Exception whose message
embeds the original one, and the course table is unchanged (no partial
commit, same rows); any per-course processing exception rolls the whole sync
transaction back (table unchanged) and is re-raised unmodified — sync is
all-or-nothing. -/
theorem C7_sync_all_or_nothing :
    (∀ (db : List Course) (m : String),
      sync_moodle_courses_run db (.reqError m) =
        (db, .error (.generic ("Failed to connect to Moodle: " ++ m)))) ∧
    (∀ (db : List Course) (courses : List MoodleCourseJson) (e : PyExc),
      upsertLoop (fun _ => true) parseMoodleCourse db courses 0 0 = .error e →
      sync_moodle_courses_run db (.ok courses) = (db, .error e)) := by
  refine ⟨fun db m => rfl, ?_⟩
  intro db courses e h
  simp [sync_moodle_courses_run, h]

/-- Witness for C7: a timeout, and a remote course record missing its id. -/
theorem C7_sync_all_or_nothing_witness :
    sync_moodle_courses_run
        [⟨"moodle_1", "A", "a", "", "General", "moodle", "1"⟩]
        (.reqError "timeout") =
      ([⟨"moodle_1", "A", "a", "", "General", "moodle", "1"⟩],
        .error (.generic ("Failed to connect to Moodle: " ++ "timeout"))) ∧
    sync_moodle_courses_run
        [⟨"moodle_1", "A", "a", "", "General", "moodle", "1"⟩]
        (.ok [⟨none, none, none, none, none⟩]) =
      ([⟨"moodle_1", "A", "a", "", "General", "moodle", "1"⟩],
        .error (.keyError "id")) :=
  ⟨C7_sync_all_or_nothing.1
      [⟨"moodle_1", "A", "a", "", "General", "moodle", "1"⟩] "timeout",
    C7_sync_all_or_nothing.2
      [⟨"moodle_1", "A", "a", "", "General", "moodle", "1"⟩]
      [⟨none, none, none, none, none⟩] (.keyError "id") (by decide)⟩

/-- C8 counterexample: with the HTTP fetch raising a transient requests-level
error on every attempt, the decorated `sync_moodle_courses` invokes the sync
body exactly once, not 3 times — the body converts the
`requests.RequestException` into a plain Exception outside the configured
retry exception tuple, so `with_retry` never retries. -/
theorem C8_counterexample_body_called_once :
    (moodleSyncStack [] (fun _ => .reqError "timeout") (fun _ => 0)
      freshCircuit).bodyCalls = 1 ∧
    (moodleSyncStack [] (fun _ => .reqError "timeout") (fun _ => 0)
      freshCircuit).sleeps = [] ∧
    ¬ (moodleSyncStack [] (fun _ => .reqError "timeout") (fun _ => 0)
      freshCircuit).bodyCalls = 3 := by
  refine ⟨by decide, ?_, by decide⟩
  show ([] : List ℚ) = []
  rfl

/-- C8 amended: each `sync_*_courses` is wrapped with
`with_retry(max_attempts = 3, backoff_factor = 2.0)` over
requests-level/service-unavailable exceptions and an inner circuit breaker,
but because the body catches the requests-level fetch error and re-raises it
as a plain Exception outside that tuple, the sync body is invoked exactly
once, no backoff sleep happens, and the wrapped generic exception surfaces;
the circuit breaker still records the one failure.  This holds for the
Moodle, Canvas, Sakai and Chamilo stacks alike. -/
theorem C8_sync_retry_defeated :
    (∀ (db : List Course) (fetch : Nat → MoodleFetch) (times : Nat → Nat)
        (st : CircuitState) (m : String),
      st.state = "closed" → fetch 0 = .reqError m →
      moodleSyncStack db fetch times st =
        ⟨.error (.generic ("Failed to connect to Moodle: " ++ m)), 1, [],
          ⟨st.failures + 1, some (times 0),
            if st.failures + 1 ≥ 5 then "open" else "closed"⟩⟩) ∧
    (∀ (db : List Course) (fetch : Nat → CanvasFetch) (times : Nat → Nat)
        (st : CircuitState) (m : String),
      st.state = "closed" → fetch 0 = .reqError m →
      canvasSyncStack db fetch times st =
        ⟨.error (.generic ("Failed to connect to Canvas: " ++ m)), 1, [],
          ⟨st.failures + 1, some (times 0),
            if st.failures + 1 ≥ 5 then "open" else "closed"⟩⟩) ∧
    (∀ (db : List Course) (fetch : Nat → SakaiFetch) (times : Nat → Nat)
        (st : CircuitState) (m : String),
      st.state = "closed" → fetch 0 = .reqError m →
      sakaiSyncStack db fetch times st =
        ⟨.error (.generic ("Failed to connect to Sakai: " ++ m)), 1, [],
          ⟨st.failures + 1, some (times 0),
            if st.failures + 1 ≥ 5 then "open" else "closed"⟩⟩) ∧
    (∀ (db : List Course) (fetch : Nat → ChamiloFetch) (times : Nat → Nat)
        (st : CircuitState) (m : String),
      st.state = "closed" → fetch 0 = .reqError m →
      chamiloSyncStack db fetch times st =
        ⟨.error (.generic ("Failed to connect to Chamilo: " ++ m)), 1, [],
          ⟨st.failures + 1, some (times 0),
            if st.failures + 1 ≥ 5 then "open" else "closed"⟩⟩) := by
  refine ⟨?_, ?_, ?_, ?_⟩ <;>
    (intro db fetch times st m hst hf
     simp [moodleSyncStack, canvasSyncStack, sakaiSyncStack, chamiloSyncStack,
       retryOverCB, show (3 : Nat) = 2 + 1 from rfl, retryOverCBGo,
       circuitBreakerCall, hst, hf, sync_moodle_courses_run,
       sync_canvas_courses_run, sync_sakai_courses_run,
       sync_chamilo_courses_run, syncRetryMatches, canvasRetryMatches])

/-- Witness for C8: a fresh circuit and a permanent timeout, Moodle stack. -/
theorem C8_sync_retry_defeated_witness :
    moodleSyncStack [] (fun _ => .reqError "boom") (fun _ => 7) freshCircuit =
      ⟨.error (.generic ("Failed to connect to Moodle: " ++ "boom")), 1, [],
        ⟨freshCircuit.failures + 1, some 7,
          if freshCircuit.failures + 1 ≥ 5 then "open" else "closed"⟩⟩ :=
  C8_sync_retry_defeated.1 [] (fun _ => .reqError "boom") (fun _ => 7)
    freshCircuit "boom" rfl rfl

/-- C9 counterexample: the two stacking orders are NOT interchangeable, and
the source order is retry outermost.  On a body that keeps raising
`ServiceUnavailableError` (which the retry tuple matches), the source
composition `with_retry(circuit_breaker(body))` drives every retry attempt
through the breaker and records 3 failures in one call, while the claimed
composition `circuit_breaker(with_retry(body))` records only 1 — so the
stacks differ and the claimed ordering (circuit breaker outermost) is false
of the source. -/
theorem C9_counterexample_stacking_order :
    (retryOverCB "sync_moodle_courses" 3 2 300 true syncRetryMatches 5 300
      (fun _ => (.error (.serviceUnavailable "boom") : Except PyExc SyncResult))
      (fun _ => 1000) freshCircuit).circuit.failures = 3 ∧
    (cbOverRetry "sync_moodle_courses" 3 2 300 true syncRetryMatches 5 300
      (fun _ => (.error (.serviceUnavailable "boom") : Except PyExc SyncResult))
      1000 freshCircuit).circuit.failures = 1 ∧
    retryOverCB "sync_moodle_courses" 3 2 300 true syncRetryMatches 5 300
      (fun _ => (.error (.serviceUnavailable "boom") : Except PyExc SyncResult))
      (fun _ => 1000) freshCircuit ≠
    cbOverRetry "sync_moodle_courses" 3 2 300 true syncRetryMatches 5 300
      (fun _ => (.error (.serviceUnavailable "boom") : Except PyExc SyncResult))
      1000 freshCircuit := by
  refine ⟨by decide, by decide, ?_⟩
  intro h
  have h2 := congrArg (fun s : StackResult SyncResult => s.circuit.failures) h
  revert h2
  decide

/-- C9 amended: in the source stacking the retry decorator is outermost and
the circuit breaker inner (Python applies decorators bottom-up); still, every
call made while the circuit is open (and the miscomputed recovery window has
not elapsed) raises the circuit-open error immediately: the sync body is
never invoked and no retry attempt or backoff delay occurs, because the
circuit-open error is a plain Exception outside the retry exception tuple.
This holds for all four platform stacks. -/
theorem C9_open_circuit_skips_retry :
    (∀ (db : List Course) (fetch : Nat → MoodleFetch) (times : Nat → Nat)
        (st : CircuitState),
      st.state = "open" →
      (∀ lf, st.last_failure_time = some lf →
        timedeltaSeconds (times 0 - lf) < 300) →
      moodleSyncStack db fetch times st =
        ⟨.error (circuitOpenError "sync_moodle_courses"), 0, [], st⟩) ∧
    (∀ (db : List Course) (fetch : Nat → CanvasFetch) (times : Nat → Nat)
        (st : CircuitState),
      st.state = "open" →
      (∀ lf, st.last_failure_time = some lf →
        timedeltaSeconds (times 0 - lf) < 300) →
      canvasSyncStack db fetch times st =
        ⟨.error (circuitOpenError "sync_canvas_courses"), 0, [], st⟩) ∧
    (∀ (db : List Course) (fetch : Nat → SakaiFetch) (times : Nat → Nat)
        (st : CircuitState),
      st.state = "open" →
      (∀ lf, st.last_failure_time = some lf →
        timedeltaSeconds (times 0 - lf) < 300) →
      sakaiSyncStack db fetch times st =
        ⟨.error (circuitOpenError "sync_sakai_courses"), 0, [], st⟩) ∧
    (∀ (db : List Course) (fetch : Nat → ChamiloFetch) (times : Nat → Nat)
        (st : CircuitState),
      st.state = "open" →
      (∀ lf, st.last_failure_time = some lf →
        timedeltaSeconds (times 0 - lf) < 300) →
      chamiloSyncStack db fetch times st =
        ⟨.error (circuitOpenError "sync_chamilo_courses"), 0, [], st⟩) := by
  refine ⟨?_, ?_, ?_, ?_⟩ <;>
    (intro db fetch times st hst hlf
     have hcond : (match st.last_failure_time with
         | some lf => decide (timedeltaSeconds (times 0 - lf) ≥ 300)
         | none => false) = false := by
       cases hl : st.last_failure_time with
       | none => rfl
       | some lf =>
         have := hlf lf hl
         simp only [decide_eq_false_iff_not]
         omega
     simp [moodleSyncStack, canvasSyncStack, sakaiSyncStack, chamiloSyncStack,
       retryOverCB, show (3 : Nat) = 2 + 1 from rfl, retryOverCBGo,
       circuitBreakerCall, hst, hcond, syncRetryMatches, canvasRetryMatches,
       circuitOpenError])

/-- Witness for C9: a circuit opened at time 0, probed again at time 10. -/
theorem C9_open_circuit_skips_retry_witness :
    moodleSyncStack [] (fun _ => .reqError "boom") (fun _ => 10)
        ⟨5, some 0, "open"⟩ =
      ⟨.error (circuitOpenError "sync_moodle_courses"), 0, [],
        ⟨5, some 0, "open"⟩⟩ :=
  C9_open_circuit_skips_retry.1 [] (fun _ => .reqError "boom") (fun _ => 10)
    ⟨5, some 0, "open"⟩ rfl
    (by intro lf hlf; cases hlf; decide)

end LMS
